import Mathlib

/-!
Shallow embedding of the recipient-resolution and trigger-dispatch core
(`events.controller.ts`: `EventsController` and `MapTriggerRecipients`).

TypeScript values are modelled as follows: the recipient union
(`string | ISubscribersDefine | ITopic`) becomes an inductive with a string
variant and a structural-object variant carrying the optional discriminator
(`type`), `subscriberId`, `topicId` and one representative profile field;
the external collaborators (topic-subscriber resolver, log sink) are
parameters; JS falsiness of strings (only the empty string is falsy) is
modelled explicitly where the source uses `||` or `!x`.
-/

namespace Novu

/-- String values of `TriggerRecipientsTypeEnum` from the shared package. -/
def TriggerRecipientsTypeEnum.SUBSCRIBER : String := "Subscriber"

/-- Topic marker of `TriggerRecipientsTypeEnum`. -/
def TriggerRecipientsTypeEnum.TOPIC : String := "Topic"

/-- Structural object form of a recipient: optional discriminator `type`,
optional `subscriberId` (present on `ISubscribersDefine`), optional `topicId`
(present on `ITopic`), plus one representative optional profile field
(`email`) standing for the profile overrides an `ISubscribersDefine` may
carry. -/
structure RecipientObj where
  type? : Option String := none
  subscriberId? : Option String := none
  topicId? : Option String := none
  email? : Option String := none
  deriving DecidableEq, Repr

/-- One recipient expression: a bare string id or a structured object
(the TS union `TriggerRecipient = string | ISubscribersDefine | ITopic`). -/
inductive TriggerRecipient where
  | str (id : String)
  | obj (o : RecipientObj)
  deriving DecidableEq, Repr

/-- `TriggerRecipientsPayload`: a single recipient expression or an array of
them; the source normalizes with `Array.isArray(x) ? x : [x]`. -/
inductive TriggerRecipientsPayload where
  | one (r : TriggerRecipient)
  | many (rs : List TriggerRecipient)
  deriving DecidableEq, Repr

/-- `Array.isArray(x) ? x : [x]` from the source, applied to a payload. -/
def TriggerRecipientsPayload.toList : TriggerRecipientsPayload → List TriggerRecipient
  | .one r => [r]
  | .many rs => rs

/-- Command handed to `GetTopicSubscribersUseCase.execute`. -/
structure GetTopicSubscribersCommand where
  environmentId : String
  topicId : String
  organizationId : String
  userId : String
  deriving DecidableEq, Repr

/-- `LogStatusEnum.ERROR`. -/
def LogStatusEnum.ERROR : String := "error"

/-- `LogCodeEnum.TOPIC_SUBSCRIBERS_ERROR`. -/
def LogCodeEnum.TOPIC_SUBSCRIBERS_ERROR : String := "TOPIC_SUBSCRIBERS_ERROR"

/-- Command handed to `CreateLog.execute` by `logTopicSubscribersError`. -/
structure CreateLogCommand where
  transactionId : String
  status : String
  environmentId : String
  organizationId : String
  text : String
  userId : String
  code : String
  topicId : String
  deriving DecidableEq, Repr

/-- `ILogTopicSubscribersPayload` from the source. -/
structure ILogTopicSubscribersPayload where
  environmentId : String
  organizationId : String
  topicId : String
  transactionId : String
  userId : String
  deriving DecidableEq, Repr

/-- The topic-subscriber resolver collaborator (`GetTopicSubscribersUseCase`):
returns the member subscriber ids of a topic, or fails. -/
def Resolver : Type := GetTopicSubscribersCommand → Except String (List String)

/-- The log-sink collaborator (`CreateLog`): records a log command, or fails. -/
def Sink : Type := CreateLogCommand → Except String Unit

/-- `MapTriggerRecipientsCommand`. -/
structure MapTriggerRecipientsCommand where
  environmentId : String
  organizationId : String
  recipients : TriggerRecipientsPayload
  transactionId : String
  userId : String
  deriving DecidableEq, Repr

namespace MapTriggerRecipients

/-- `MapTriggerRecipients.mapSubscriber`: a string becomes
`\x7b subscriberId \x7d`; an object passes through unchanged. -/
def mapSubscriber : TriggerRecipient → RecipientObj
  | .str s => { subscriberId? := some s }
  | .obj o => o

/-- The `isNotTopic` predicate inside `findSubscribers`:
`typeof recipient === 'string' || recipient?.type !== TOPIC`. -/
def isNotTopic : TriggerRecipient → Bool
  | .str _ => true
  | .obj o => o.type? ≠ some TriggerRecipientsTypeEnum.TOPIC

/-- `MapTriggerRecipients.findSubscribers`: keep the non-topic recipients and
map them through `mapSubscriber`, preserving order. -/
def findSubscribers (recipients : List TriggerRecipient) : List RecipientObj :=
  (recipients.filter isNotTopic).map mapSubscriber

/-- `MapTriggerRecipients.findTopics`: keep the recipients whose discriminator
equals the topic marker (`recipient?.type === TOPIC`; never true of a
string). -/
def findTopics (recipients : List TriggerRecipient) : List RecipientObj :=
  recipients.filterMap fun r =>
    match r with
    | .str _ => none
    | .obj o => if o.type? = some TriggerRecipientsTypeEnum.TOPIC then some o else none

/-- The `CreateLogCommand` built inside `logTopicSubscribersError`. -/
def createLogCommandOf (p : ILogTopicSubscribersPayload) : CreateLogCommand :=
  { transactionId := p.transactionId
    status := LogStatusEnum.ERROR
    environmentId := p.environmentId
    organizationId := p.organizationId
    text := "Failed retrieving topic subscribers"
    userId := p.userId
    code := LogCodeEnum.TOPIC_SUBSCRIBERS_ERROR
    topicId := p.topicId }

/-- `MapTriggerRecipients.logTopicSubscribersError`: runs the log sink and
swallows its failure (`.catch((e) => console.error(e))`), so it never
propagates an error. -/
def logTopicSubscribersError (sink : Sink) (p : ILogTopicSubscribersPayload) :
    Except String Unit :=
  match sink (createLogCommandOf p) with
  | .ok _ => .ok ()
  | .error _ => .ok ()

/-- `topic?.topicId || ''` from the source: the empty string is the only falsy
string, so an absent `topicId` and an empty one both yield `""`. -/
def topicIdOrEmpty (topic : RecipientObj) : String :=
  topic.topicId?.getD ""

/-- The loop body of `getSubscribersFromAllTopics`, made explicit as structural
recursion over the topic list, threading the accumulated topic subscribers and
the list of log commands handed to the sink. An uncaught sink failure would
surface as `.error`; `logTopicSubscribersError` prevents that. -/
def getSubscribersFromAllTopicsGo (sink : Sink) (resolver : Resolver)
    (transactionId environmentId organizationId userId : String) :
    List RecipientObj → List RecipientObj → List CreateLogCommand →
      Except String (List RecipientObj × List CreateLogCommand)
  | [], topicSubscribers, logs => .ok (topicSubscribers, logs)
  | topic :: rest, topicSubscribers, logs =>
      match resolver { environmentId := environmentId, topicId := topicIdOrEmpty topic,
                       organizationId := organizationId, userId := userId } with
      | .ok subscribers =>
          getSubscribersFromAllTopicsGo sink resolver transactionId environmentId
            organizationId userId rest
            (topicSubscribers ++ subscribers.map fun s => { subscriberId? := some s }) logs
      | .error _ =>
          match logTopicSubscribersError sink
              { environmentId := environmentId, organizationId := organizationId,
                topicId := topicIdOrEmpty topic, transactionId := transactionId,
                userId := userId } with
          | .ok _ =>
              getSubscribersFromAllTopicsGo sink resolver transactionId environmentId
                organizationId userId rest topicSubscribers
                (logs ++ [createLogCommandOf
                  { environmentId := environmentId, organizationId := organizationId,
                    topicId := topicIdOrEmpty topic, transactionId := transactionId,
                    userId := userId }])
          | .error e => .error e

/-- `MapTriggerRecipients.getSubscribersFromAllTopics`. -/
def getSubscribersFromAllTopics (sink : Sink) (resolver : Resolver)
    (transactionId environmentId organizationId userId : String)
    (recipients : List TriggerRecipient) :
    Except String (List RecipientObj × List CreateLogCommand) :=
  getSubscribersFromAllTopicsGo sink resolver transactionId environmentId
    organizationId userId (findTopics recipients) [] []

/-- `MapTriggerRecipients.execute`: normalize the payload to a list, compute
the simple (direct) subscribers, compute the topic subscribers, and return the
concatenation (direct entries first). -/
def execute (sink : Sink) (resolver : Resolver) (command : MapTriggerRecipientsCommand) :
    Except String (List RecipientObj × List CreateLogCommand) :=
  let mappedRecipients := command.recipients.toList
  let simpleSubscribers := findSubscribers mappedRecipients
  match getSubscribersFromAllTopics sink resolver command.transactionId
      command.environmentId command.organizationId command.userId mappedRecipients with
  | .ok (topicSubscribers, logs) => .ok (simpleSubscribers ++ topicSubscribers, logs)
  | .error e => .error e

/-- Declarative form of one topic's contribution to the resolved list: its
members mapped to bare subscriber objects on success, nothing on failure. -/
def topicContribution (resolver : Resolver)
    (environmentId organizationId userId : String) (topic : RecipientObj) :
    List RecipientObj :=
  match resolver { environmentId := environmentId, topicId := topicIdOrEmpty topic,
                   organizationId := organizationId, userId := userId } with
  | .ok subscribers => subscribers.map fun s => { subscriberId? := some s }
  | .error _ => []

/-- Declarative form of one topic's contribution to the failure log: one
`CreateLogCommand` on failure, nothing on success. -/
def topicFailureLog (resolver : Resolver)
    (transactionId environmentId organizationId userId : String)
    (topic : RecipientObj) : Option CreateLogCommand :=
  match resolver { environmentId := environmentId, topicId := topicIdOrEmpty topic,
                   organizationId := organizationId, userId := userId } with
  | .ok _ => none
  | .error _ => some (createLogCommandOf
      { environmentId := environmentId, organizationId := organizationId,
        topicId := topicIdOrEmpty topic, transactionId := transactionId,
        userId := userId })

end MapTriggerRecipients

/-- The JWT payload fields the controller reads. -/
structure IJwtPayload where
  _id : String
  environmentId : String
  organizationId : String
  deriving DecidableEq, Repr

/-- `TriggerEventRequestDto`: name, payload, overrides, `to`, optional actor,
optional transaction id. Payload and overrides are carried opaquely. -/
structure TriggerEventRequestDto where
  name : String
  payload : String
  overrides? : Option (List (String × String)) := none
  «to» : TriggerRecipientsPayload
  actor? : Option TriggerRecipient := none
  transactionId? : Option String := none
  deriving DecidableEq, Repr

/-- `TriggerEventToAllRequestDto` (the broadcast request has no `to`). -/
structure TriggerEventToAllRequestDto where
  name : String
  payload : String
  overrides? : Option (List (String × String)) := none
  actor? : Option TriggerRecipient := none
  transactionId? : Option String := none
  deriving DecidableEq, Repr

/-- `TriggerEventCommand` assembled by `trackEvent`. -/
structure TriggerEventCommand where
  userId : String
  environmentId : String
  organizationId : String
  identifier : String
  payload : String
  overrides : List (String × String)
  «to» : List RecipientObj
  actor : Option RecipientObj
  transactionId : String
  deriving DecidableEq, Repr

/-- `TriggerEventToAllCommand` assembled by `trackEventToAll`. -/
structure TriggerEventToAllCommand where
  userId : String
  environmentId : String
  organizationId : String
  identifier : String
  payload : String
  transactionId : String
  overrides : List (String × String)
  actor : Option RecipientObj
  deriving DecidableEq, Repr

/-- Observable steps of the controller paths, in source statement order: the
idempotency-collaborator validation call, the pure recipient/actor mapping
steps, a topic-resolver call, and the final hand-off to the workflow engine. -/
inductive ControllerStep where
  | validateTransactionId (transactionId organizationId environmentId : String)
  | aggregateStep
  | mapSubscribersStep
  | mapActorStep
  | topicResolve (cmd : GetTopicSubscribersCommand)
  | dispatch (cmd : TriggerEventCommand)
  | dispatchBroadcast (cmd : TriggerEventToAllCommand)
  deriving DecidableEq, Repr

namespace EventsController

/-- `body.transactionId || uuidv4()`: JS `||` takes the right operand when the
left is falsy, and the only falsy string is `""`; `fresh` stands for the
`uuidv4()` call (an injected fresh identifier). -/
def resolveTransactionId (transactionId? : Option String) (fresh : String) : String :=
  match transactionId? with
  | some t => if t = "" then fresh else t
  | none => fresh

/-- The filter predicate inside `aggregateSubscribers`: keep strings and
objects with a falsy `type`; otherwise keep only the subscriber marker. -/
def keepsInAggregate : TriggerRecipient → Bool
  | .str _ => true
  | .obj o =>
      match o.type? with
      | none => true
      | some t => if t = "" then true else t = TriggerRecipientsTypeEnum.SUBSCRIBER

/-- `EventsController.aggregateSubscribers`: normalize `body.to` to a list and
filter it with `keepsInAggregate`. -/
def aggregateSubscribers (body : TriggerEventRequestDto) : List TriggerRecipient :=
  body.«to».toList.filter keepsInAggregate

/-- `EventsController.mapSubscriber` (textually identical to
`MapTriggerRecipients.mapSubscriber`). -/
def mapSubscriber : TriggerRecipient → RecipientObj
  | .str s => { subscriberId? := some s }
  | .obj o => o

/-- `EventsController.mapSubscribers`. -/
def mapSubscribers (subscribers : List TriggerRecipient) : List RecipientObj :=
  subscribers.map mapSubscriber

/-- `EventsController.mapActor`: `if (!actor) return;` — an absent actor and
the empty string (the only falsy recipient value) yield nothing; otherwise the
actor goes through `mapSubscriber` unchanged. No shape check is performed. -/
def mapActor : Option TriggerRecipient → Option RecipientObj
  | none => none
  | some (.str s) => if s = "" then none else some (mapSubscriber (.str s))
  | some (.obj o) => some (mapSubscriber (.obj o))

/-- `EventsController.trackEvent`: computes the transaction id, validates it,
aggregates and maps the subscribers, maps the actor, assembles the
`TriggerEventCommand` and hands it to `triggerEvent.execute`. Returns the
assembled command together with the ordered step trace. -/
def trackEvent (user : IJwtPayload) (body : TriggerEventRequestDto) (fresh : String) :
    TriggerEventCommand × List ControllerStep :=
  let transactionId := resolveTransactionId body.transactionId? fresh
  let subscribers := aggregateSubscribers body
  let mappedSubscribers := mapSubscribers subscribers
  let mappedActor := mapActor body.actor?
  let cmd : TriggerEventCommand :=
    { userId := user._id
      environmentId := user.environmentId
      organizationId := user.organizationId
      identifier := body.name
      payload := body.payload
      overrides := body.overrides?.getD []
      «to» := mappedSubscribers
      actor := mappedActor
      transactionId := transactionId }
  (cmd,
    [.validateTransactionId transactionId user.organizationId user.environmentId,
     .aggregateStep, .mapSubscribersStep, .mapActorStep, .dispatch cmd])

/-- `EventsController.trackEventToAll`: computes the transaction id, validates
it, maps the actor, assembles the `TriggerEventToAllCommand` and hands it to
`triggerEventToAll.execute`. Returns the command with the ordered step
trace. -/
def trackEventToAll (user : IJwtPayload) (body : TriggerEventToAllRequestDto)
    (fresh : String) : TriggerEventToAllCommand × List ControllerStep :=
  let transactionId := resolveTransactionId body.transactionId? fresh
  let mappedActor := mapActor body.actor?
  let cmd : TriggerEventToAllCommand :=
    { userId := user._id
      environmentId := user.environmentId
      organizationId := user.organizationId
      identifier := body.name
      payload := body.payload
      transactionId := transactionId
      overrides := body.overrides?.getD []
      actor := mappedActor }
  (cmd,
    [.validateTransactionId transactionId user.organizationId user.environmentId,
     .mapActorStep, .dispatchBroadcast cmd])

/-- True of an actor value shaped as a topic reference (discriminator equals
the topic marker). -/
def actorIsTopic : Option TriggerRecipient → Bool
  | some (.obj o) => o.type? = some TriggerRecipientsTypeEnum.TOPIC
  | _ => false

/-- Modelled from the spec: the request-body validation layer that guards
`trackEvent` is not among the sources here (it lives in the DTO layer, which
is out of scope); per the spec, "a Topic-typed actor is invalid (an actor is
always a single concrete subscriber) — this is a request-validation error",
rejected "before any resolution work begins". The guarded entry point rejects
such a request before running `trackEvent`, so no step is taken. -/
def trackEventValidated (user : IJwtPayload) (body : TriggerEventRequestDto)
    (fresh : String) : Except String (TriggerEventCommand × List ControllerStep) :=
  if actorIsTopic body.actor? then .error "ValidationError: actor must be a subscriber"
  else .ok (trackEvent user body fresh)

end EventsController

namespace MapTriggerRecipients

/-- The sink failure is always swallowed: `logTopicSubscribersError` returns
successfully whatever the sink does. -/
lemma logTopicSubscribersError_eq_ok (sink : Sink) (p : ILogTopicSubscribersPayload) :
    logTopicSubscribersError sink p = .ok () := by
  unfold logTopicSubscribersError
  cases sink (createLogCommandOf p) <;> rfl

/-- Declarative characterization of the topic loop: it never raises, each
topic contributes its `topicContribution` to the subscribers and its
`topicFailureLog` to the log list, in input order. -/
lemma getSubscribersFromAllTopicsGo_spec (sink : Sink) (resolver : Resolver)
    (transactionId environmentId organizationId userId : String)
    (topics : List RecipientObj) :
    ∀ (acc : List RecipientObj) (logs : List CreateLogCommand),
      getSubscribersFromAllTopicsGo sink resolver transactionId environmentId
          organizationId userId topics acc logs =
        .ok (acc ++ topics.flatMap
               (topicContribution resolver environmentId organizationId userId),
             logs ++ topics.filterMap
               (topicFailureLog resolver transactionId environmentId organizationId userId)) := by
  induction topics with
  | nil => intro acc logs; simp [getSubscribersFromAllTopicsGo]
  | cons t rest ih =>
      intro acc logs
      cases h : resolver { environmentId := environmentId, topicId := topicIdOrEmpty t,
                           organizationId := organizationId, userId := userId } with
      | ok subscribers =>
          simp [getSubscribersFromAllTopicsGo, h, ih, topicContribution, topicFailureLog]
      | error e =>
          simp [getSubscribersFromAllTopicsGo, h, ih, topicContribution, topicFailureLog,
                logTopicSubscribersError_eq_ok]

/-- Declarative characterization of `execute`: direct entries mapped in order
at the front, then each topic's contribution in input order; the log list
holds one entry per failing topic. -/
lemma execute_spec (sink : Sink) (resolver : Resolver)
    (command : MapTriggerRecipientsCommand) :
    execute sink resolver command =
      .ok (findSubscribers command.recipients.toList ++
             (findTopics command.recipients.toList).flatMap
               (topicContribution resolver command.environmentId
                 command.organizationId command.userId),
           (findTopics command.recipients.toList).filterMap
             (topicFailureLog resolver command.transactionId command.environmentId
               command.organizationId command.userId)) := by
  simp only [execute, getSubscribersFromAllTopics, getSubscribersFromAllTopicsGo_spec,
    List.nil_append]

end MapTriggerRecipients

/-- C2: when the resolver call for a topic fails, resolution does not raise to
the caller (the result is `.ok`), that topic contributes nothing to the
subscribers (`topicContribution` is empty on failure) and exactly one log
command — built by `createLogCommandOf` from the topic id (`topicIdOrEmpty`,
which is `""` for a malformed reference) and the tenant/transaction context —
is emitted for it (`topicFailureLog`), while every other topic is still
processed in order. -/
theorem C2_topic_failure_isolated_and_logged (sink : Sink) (resolver : Resolver)
    (command : MapTriggerRecipientsCommand) :
    MapTriggerRecipients.getSubscribersFromAllTopics sink resolver
        command.transactionId command.environmentId command.organizationId
        command.userId command.recipients.toList =
      .ok ((MapTriggerRecipients.findTopics command.recipients.toList).flatMap
             (MapTriggerRecipients.topicContribution resolver command.environmentId
               command.organizationId command.userId),
           (MapTriggerRecipients.findTopics command.recipients.toList).filterMap
             (MapTriggerRecipients.topicFailureLog resolver command.transactionId
               command.environmentId command.organizationId command.userId)) := by
  simp only [MapTriggerRecipients.getSubscribersFromAllTopics,
    MapTriggerRecipients.getSubscribersFromAllTopicsGo_spec, List.nil_append]

/-- C3: `MapTriggerRecipients.execute` returns exactly the direct (non-topic)
entries mapped through `mapSubscriber` in their original input order at the
front of the result, concatenated with the topic-derived subscribers, topics
processed in input order, each successful topic contributing one bare
subscriber object per member id in the resolver-returned order
(`topicContribution`). -/
theorem C3_direct_entries_front_topics_after (sink : Sink) (resolver : Resolver)
    (command : MapTriggerRecipientsCommand) :
    MapTriggerRecipients.execute sink resolver command =
      .ok (((command.recipients.toList.filter MapTriggerRecipients.isNotTopic).map
              MapTriggerRecipients.mapSubscriber) ++
             (MapTriggerRecipients.findTopics command.recipients.toList).flatMap
               (MapTriggerRecipients.topicContribution resolver command.environmentId
                 command.organizationId command.userId),
           (MapTriggerRecipients.findTopics command.recipients.toList).filterMap
             (MapTriggerRecipients.topicFailureLog resolver command.transactionId
               command.environmentId command.organizationId command.userId)) := by
  rw [MapTriggerRecipients.execute_spec]
  rfl

/-- C7: for every recipient payload and every resolver behavior (including
failing lookups), `execute` succeeds and its resolved list has a
direct-derived front of length exactly the number of direct (non-topic)
entries, and total length at least that number. -/
theorem C7_direct_front_length_invariant (sink : Sink) (resolver : Resolver)
    (command : MapTriggerRecipientsCommand) :
    ∃ subscribers logs,
      MapTriggerRecipients.execute sink resolver command = .ok (subscribers, logs)
      ∧ subscribers.take
            (command.recipients.toList.filter MapTriggerRecipients.isNotTopic).length =
          MapTriggerRecipients.findSubscribers command.recipients.toList
      ∧ (command.recipients.toList.filter MapTriggerRecipients.isNotTopic).length ≤
          subscribers.length := by
  refine ⟨_, _, MapTriggerRecipients.execute_spec sink resolver command, ?_, ?_⟩
  · have hlen : (command.recipients.toList.filter MapTriggerRecipients.isNotTopic).length =
        (MapTriggerRecipients.findSubscribers command.recipients.toList).length := by
      simp [MapTriggerRecipients.findSubscribers]
    rw [hlen, List.take_left]
  · simp [MapTriggerRecipients.findSubscribers]

/-- C9: a failure of the log-sink collaborator never propagates back into
recipient resolution: `execute` with any sink returns the very same result as
with a sink whose writes always succeed, and that result is a success. -/
theorem C9_log_sink_failure_isolated (sink : Sink) (resolver : Resolver)
    (command : MapTriggerRecipientsCommand) :
    MapTriggerRecipients.execute sink resolver command =
        MapTriggerRecipients.execute (fun _ => .ok ()) resolver command
      ∧ ∃ out, MapTriggerRecipients.execute sink resolver command = .ok out := by
  constructor
  · rw [MapTriggerRecipients.execute_spec, MapTriggerRecipients.execute_spec]
  · exact ⟨_, MapTriggerRecipients.execute_spec sink resolver command⟩

/-- C10: a single (non-array) recipient expression is processed identically to
the one-element list holding it: both the controller aggregation and
`MapTriggerRecipients.execute` normalize the payload to a singleton list
first, so the outputs coincide. -/
theorem C10_single_recipient_normalization (sink : Sink) (resolver : Resolver)
    (environmentId organizationId transactionId userId : String)
    (r : TriggerRecipient) (name payload : String)
    (ov : Option (List (String × String))) (actor : Option TriggerRecipient)
    (tid : Option String) :
    MapTriggerRecipients.execute sink resolver
        { environmentId := environmentId, organizationId := organizationId,
          recipients := .one r, transactionId := transactionId, userId := userId } =
      MapTriggerRecipients.execute sink resolver
        { environmentId := environmentId, organizationId := organizationId,
          recipients := .many [r], transactionId := transactionId, userId := userId }
    ∧ EventsController.aggregateSubscribers
        { name := name, payload := payload, overrides? := ov, «to» := .one r,
          actor? := actor, transactionId? := tid } =
      EventsController.aggregateSubscribers
        { name := name, payload := payload, overrides? := ov, «to» := .many [r],
          actor? := actor, transactionId? := tid } := by
  exact ⟨rfl, rfl⟩

/-- True of a trace step that belongs to per-recipient resolution work: the
recipient aggregation, the per-recipient mapping, or a topic-resolver call. -/
def isRecipientResolutionStep : ControllerStep → Bool
  | .aggregateStep => true
  | .mapSubscribersStep => true
  | .topicResolve _ => true
  | _ => false

/-- C1: the dispatch path does not run the recipient-resolution orchestrator.
Evaluated at a request whose "to" list is one topic reference (for which any
resolver would return its members), `trackEvent` dispatches an empty recipient
list — `aggregateSubscribers` filters the topic entry out, the step trace
holds no topic-resolver call, and `MapTriggerRecipients` is never invoked
(the source marks the gap with a `TODO: map topics` comment) — instead of the
`0 + n` recipients the claim requires. -/
theorem C1_dispatch_drops_topic_recipients :
    (EventsController.trackEvent ⟨"u1", "env1", "org1"⟩
        { name := "event", payload := "p",
          «to» := .many [.obj { type? := some TriggerRecipientsTypeEnum.TOPIC,
                                topicId? := some "topic-1" }] }
        "uuid-1").1.«to» = []
    ∧ ((EventsController.trackEvent ⟨"u1", "env1", "org1"⟩
          { name := "event", payload := "p",
            «to» := .many [.obj { type? := some TriggerRecipientsTypeEnum.TOPIC,
                                  topicId? := some "topic-1" }] }
          "uuid-1").2.all fun step =>
            match step with
            | .topicResolve _ => false
            | _ => true) = true := by
  exact ⟨rfl, rfl⟩

/-- C4: a trigger request whose actor is a topic reference is rejected as a
request-validation error before any work: the guarded entry point
(`trackEventValidated`, modelled from the spec because the DTO validation
layer is not among the sources) returns an error and produces no step trace,
so no topic-resolver call and no dispatch call occur. -/
theorem C4_topic_actor_rejected_before_resolution (user : IJwtPayload)
    (body : TriggerEventRequestDto) (fresh : String)
    (h : EventsController.actorIsTopic body.actor? = true) :
    EventsController.trackEventValidated user body fresh =
      .error "ValidationError: actor must be a subscriber" := by
  unfold EventsController.trackEventValidated
  rw [h]
  rfl

/-- Witness for C4 at a concrete request whose actor is a topic reference. -/
theorem C4_topic_actor_rejected_before_resolution_witness :
    EventsController.trackEventValidated ⟨"u1", "env1", "org1"⟩
        { name := "event", payload := "p", «to» := .many [.str "s1"],
          actor? := some (.obj { type? := some TriggerRecipientsTypeEnum.TOPIC,
                                 topicId? := some "topic-1" }) }
        "uuid-1" =
      .error "ValidationError: actor must be a subscriber" :=
  C4_topic_actor_rejected_before_resolution ⟨"u1", "env1", "org1"⟩
    { name := "event", payload := "p", «to» := .many [.str "s1"],
      actor? := some (.obj { type? := some TriggerRecipientsTypeEnum.TOPIC,
                             topicId? := some "topic-1" }) }
    "uuid-1" (by decide)

/-- C5 counterexample: a structured entry whose discriminator is an
unrecognized tag (`"Unknown"` — neither the topic marker nor the subscriber
marker) is dropped by the trigger path's aggregation, not kept: the claim that
the trigger path keeps every such entry as Direct is false at this input. -/
theorem C5_unknown_tag_dropped_counterexample :
    EventsController.aggregateSubscribers
        { name := "event", payload := "p",
          «to» := .many [.obj { type? := some "Unknown",
                                subscriberId? := some "s1" }] } = [] := by
  exact rfl

/-- C5 amended: a structured entry whose discriminator differs from the topic
marker (absent or any other tag) is classified Direct and kept by
`MapTriggerRecipients.findSubscribers`; the controller's
`aggregateSubscribers` keeps an entry whose discriminator is absent or empty,
but drops a structured entry carrying any tag other than the subscriber
marker. -/
theorem C5_unknown_tag_classification (o : RecipientObj) (name payload : String) :
    (o.type? ≠ some TriggerRecipientsTypeEnum.TOPIC →
       MapTriggerRecipients.findSubscribers [.obj o] = [o])
    ∧ (o.type? = none →
       EventsController.aggregateSubscribers
           { name := name, payload := payload, «to» := .many [.obj o] } = [.obj o])
    ∧ (o.type? = some "" →
       EventsController.aggregateSubscribers
           { name := name, payload := payload, «to» := .many [.obj o] } = [.obj o])
    ∧ (∀ t, o.type? = some t → t ≠ "" → t ≠ TriggerRecipientsTypeEnum.SUBSCRIBER →
       EventsController.aggregateSubscribers
           { name := name, payload := payload, «to» := .many [.obj o] } = []) := by
  refine ⟨fun h => ?_, fun h => ?_, fun h => ?_, fun t ht hne hns => ?_⟩
  · simp [MapTriggerRecipients.findSubscribers, MapTriggerRecipients.isNotTopic,
      MapTriggerRecipients.mapSubscriber, h]
  · simp [EventsController.aggregateSubscribers, EventsController.keepsInAggregate,
      TriggerRecipientsPayload.toList, h]
  · simp [EventsController.aggregateSubscribers, EventsController.keepsInAggregate,
      TriggerRecipientsPayload.toList, h]
  · simp [EventsController.aggregateSubscribers, EventsController.keepsInAggregate,
      TriggerRecipientsPayload.toList, ht, hne, hns]

/-- Witness for C5 amended: an unknown-tagged entry is kept by
`findSubscribers` and dropped by `aggregateSubscribers`; an untagged entry and
an empty-tagged entry are kept by `aggregateSubscribers`. -/
theorem C5_unknown_tag_classification_witness :
    MapTriggerRecipients.findSubscribers
        [.obj { type? := some "Unknown", subscriberId? := some "s1" }] =
      [{ type? := some "Unknown", subscriberId? := some "s1" }]
    ∧ EventsController.aggregateSubscribers
        { name := "event", payload := "p",
          «to» := .many [.obj { type? := some "Unknown", subscriberId? := some "s1" }] } = []
    ∧ EventsController.aggregateSubscribers
        { name := "event", payload := "p",
          «to» := .many [.obj { subscriberId? := some "s2" }] } =
      [.obj { subscriberId? := some "s2" }]
    ∧ EventsController.aggregateSubscribers
        { name := "event", payload := "p",
          «to» := .many [.obj { type? := some "", subscriberId? := some "s3" }] } =
      [.obj { type? := some "", subscriberId? := some "s3" }] :=
  ⟨(C5_unknown_tag_classification
      { type? := some "Unknown", subscriberId? := some "s1" } "event" "p").1 (by decide),
   (C5_unknown_tag_classification
      { type? := some "Unknown", subscriberId? := some "s1" } "event" "p").2.2.2
      "Unknown" rfl (by decide) (by decide),
   (C5_unknown_tag_classification
      { subscriberId? := some "s2" } "event" "p").2.1 rfl,
   (C5_unknown_tag_classification
      { type? := some "", subscriberId? := some "s3" } "event" "p").2.2.1 rfl⟩

/-- C6 counterexample: a caller-supplied transaction id is replaced when it is
the empty string — `body.transactionId || uuidv4()` uses JS truthiness — so
the dispatched transaction id is the freshly generated one, not the
caller-supplied (present) value `""`. -/
theorem C6_empty_transactionId_counterexample :
    (EventsController.trackEvent ⟨"u1", "env1", "org1"⟩
        { name := "event", payload := "p", «to» := .many [.str "s1"],
          transactionId? := some "" }
        "uuid-1").1.transactionId = "uuid-1"
    ∧ "uuid-1" ≠ "" := by
  exact ⟨rfl, by decide⟩

/-- C6 amended: for both the single and the broadcast trigger, the transaction
id equals the caller-supplied value when present and non-empty (JS
truthiness), and otherwise the freshly generated id (`uuidv4()`, injected here
as `fresh`); and the idempotency validation step is the head of the step
trace, so it precedes every recipient- or actor-resolution step and the
dispatch. -/
theorem C6_transactionId_amended (user : IJwtPayload)
    (sbody : TriggerEventRequestDto) (bbody : TriggerEventToAllRequestDto)
    (fresh : String) :
    (∀ t, sbody.transactionId? = some t → t ≠ "" →
        (EventsController.trackEvent user sbody fresh).1.transactionId = t)
    ∧ (sbody.transactionId? = none ∨ sbody.transactionId? = some "" →
        (EventsController.trackEvent user sbody fresh).1.transactionId = fresh)
    ∧ (∀ t, bbody.transactionId? = some t → t ≠ "" →
        (EventsController.trackEventToAll user bbody fresh).1.transactionId = t)
    ∧ (bbody.transactionId? = none ∨ bbody.transactionId? = some "" →
        (EventsController.trackEventToAll user bbody fresh).1.transactionId = fresh)
    ∧ (EventsController.trackEvent user sbody fresh).2.head? =
        some (.validateTransactionId
          (EventsController.trackEvent user sbody fresh).1.transactionId
          user.organizationId user.environmentId)
    ∧ (EventsController.trackEventToAll user bbody fresh).2.head? =
        some (.validateTransactionId
          (EventsController.trackEventToAll user bbody fresh).1.transactionId
          user.organizationId user.environmentId) := by
  refine ⟨fun t ht hne => ?_, fun h => ?_, fun t ht hne => ?_, fun h => ?_, rfl, rfl⟩
  · simp [EventsController.trackEvent, EventsController.resolveTransactionId, ht, hne]
  · rcases h with h | h <;>
      simp [EventsController.trackEvent, EventsController.resolveTransactionId, h]
  · simp [EventsController.trackEventToAll, EventsController.resolveTransactionId, ht, hne]
  · rcases h with h | h <;>
      simp [EventsController.trackEventToAll, EventsController.resolveTransactionId, h]

/-- Witness for C6 amended at concrete requests: a non-empty caller-supplied
id is kept on both paths, and an empty caller-supplied id yields the fresh id
on both paths. -/
theorem C6_transactionId_amended_witness :
    (EventsController.trackEvent ⟨"u1", "env1", "org1"⟩
        { name := "event", payload := "p", «to» := .many [.str "s1"],
          transactionId? := some "tx-abc" } "uuid-1").1.transactionId = "tx-abc"
    ∧ (EventsController.trackEventToAll ⟨"u1", "env1", "org1"⟩
        { name := "event", payload := "p", transactionId? := some "tx-abc" }
        "uuid-1").1.transactionId = "tx-abc"
    ∧ (EventsController.trackEvent ⟨"u1", "env1", "org1"⟩
        { name := "event", payload := "p", «to» := .many [.str "s1"],
          transactionId? := some "" } "uuid-1").1.transactionId = "uuid-1"
    ∧ (EventsController.trackEventToAll ⟨"u1", "env1", "org1"⟩
        { name := "event", payload := "p", transactionId? := some "" }
        "uuid-1").1.transactionId = "uuid-1" :=
  ⟨(C6_transactionId_amended ⟨"u1", "env1", "org1"⟩
      { name := "event", payload := "p", «to» := .many [.str "s1"],
        transactionId? := some "tx-abc" }
      { name := "event", payload := "p", transactionId? := some "tx-abc" }
      "uuid-1").1 "tx-abc" rfl (by decide),
   (C6_transactionId_amended ⟨"u1", "env1", "org1"⟩
      { name := "event", payload := "p", «to» := .many [.str "s1"],
        transactionId? := some "tx-abc" }
      { name := "event", payload := "p", transactionId? := some "tx-abc" }
      "uuid-1").2.2.1 "tx-abc" rfl (by decide),
   (C6_transactionId_amended ⟨"u1", "env1", "org1"⟩
      { name := "event", payload := "p", «to» := .many [.str "s1"],
        transactionId? := some "" }
      { name := "event", payload := "p", transactionId? := some "" }
      "uuid-1").2.1 (Or.inr rfl),
   (C6_transactionId_amended ⟨"u1", "env1", "org1"⟩
      { name := "event", payload := "p", «to» := .many [.str "s1"],
        transactionId? := some "" }
      { name := "event", payload := "p", transactionId? := some "" }
      "uuid-1").2.2.2.1 (Or.inr rfl)⟩

/-- C8: the broadcast path performs no recipient-resolution step (no
aggregation, no per-recipient mapping, no topic-resolver call appears in its
trace), and its transaction handling is identical to the single trigger: on
bodies carrying the same optional transaction id, both traces start with the
same idempotency-validation step. -/
theorem C8_broadcast_skips_resolution (user : IJwtPayload)
    (bbody : TriggerEventToAllRequestDto) (sbody : TriggerEventRequestDto)
    (fresh : String) (h : bbody.transactionId? = sbody.transactionId?) :
    ((EventsController.trackEventToAll user bbody fresh).2.all fun step =>
        !(isRecipientResolutionStep step)) = true
    ∧ (EventsController.trackEventToAll user bbody fresh).2.head? =
        (EventsController.trackEvent user sbody fresh).2.head? := by
  constructor
  · rfl
  · simp [EventsController.trackEventToAll, EventsController.trackEvent, h]

/-- Witness for C8 at concrete single and broadcast requests sharing the same
caller-supplied transaction id. -/
theorem C8_broadcast_skips_resolution_witness :
    ((EventsController.trackEventToAll ⟨"u1", "env1", "org1"⟩
        { name := "event", payload := "p", transactionId? := some "tx-1" }
        "uuid-1").2.all fun step => !(isRecipientResolutionStep step)) = true
    ∧ (EventsController.trackEventToAll ⟨"u1", "env1", "org1"⟩
        { name := "event", payload := "p", transactionId? := some "tx-1" }
        "uuid-1").2.head? =
      (EventsController.trackEvent ⟨"u1", "env1", "org1"⟩
        { name := "event", payload := "p", «to» := .many [.str "s1"],
          transactionId? := some "tx-1" } "uuid-1").2.head? :=
  C8_broadcast_skips_resolution ⟨"u1", "env1", "org1"⟩
    { name := "event", payload := "p", transactionId? := some "tx-1" }
    { name := "event", payload := "p", «to» := .many [.str "s1"],
      transactionId? := some "tx-1" }
    "uuid-1" rfl

end Novu
